import Mathlib

/-!
Shallow embedding of the custos session & token lifecycle subsystem
(julesChu12/fly). Sources embedded:
  - custos/pkg/errors/domain_errors.go        (error taxonomy)
  - custos/internal/domain/entity             (User with TokenVersion, Session, RefreshToken)
  - custos/internal/domain/service/token/token.go (TokenService)
  - custos/internal/domain/service/auth/auth.go   (AuthService Login/Refresh/Logout)
  - mysql sessionRepository / refreshTokenRepository (GORM persistence)
  - custos/internal/interface/http/handler/oauth.go AuthMiddleware (RequireAuth,
    ensureSessionActive) and admin.go ForceLogoutUser.

Modelling conventions:
  - Time is a Nat of Unix seconds, passed explicitly where Go calls time.Now().
  - Randomness (uuid session ids, 32-byte refresh secrets) is passed in as
    explicit arguments.
  - bcrypt password comparison and the SHA-256+base64url refresh-token hash are
    external crypto primitives; they are carried in a `Crypto` record of
    functions.  Theorems that need their properties (injectivity of the hash)
    take them as hypotheses.
  - The JWT HMAC signature is modelled structurally: a signed token records the
    claims, the header algorithm and the key it was signed with; verification
    compares the key.  The golang-jwt/v5 parser's observable behaviour
    (validation order and the exact error strings the Go code compares against)
    is reproduced.
  - GORM stores are association lists kept in primary-key order; `First` is
    `List.find?`.  For `UPDATE` the MySQL driver used by the repository
    (go-sql-driver/mysql, DSN without clientFoundRows) reports the number of
    *changed* rows in RowsAffected, and the embedding of `Revoke` follows that.
-/

namespace Custos

/-- pkg/errors/domain_errors.go: DomainError (Fields is only populated by
constructors not used on the paths under study, so it is omitted). -/
structure DomainError where
  code : String
  message : String
deriving Repr, DecidableEq

def NewUserNotFoundError : DomainError :=
  { code := "USER_NOT_FOUND", message := "User not found" }

def NewInvalidCredentialsError : DomainError :=
  { code := "INVALID_CREDENTIALS", message := "Invalid username or password" }

def NewTokenExpiredError : DomainError :=
  { code := "TOKEN_EXPIRED", message := "Token has expired" }

def NewTokenInvalidError : DomainError :=
  { code := "TOKEN_INVALID", message := "Token is invalid" }

def NewSessionNotFoundError : DomainError :=
  { code := "SESSION_NOT_FOUND", message := "Session not found" }

/-- Errors escaping the auth service: either a typed *errors.DomainError or a
wrapped infrastructure/fmt.Errorf error. -/
inductive AuthErr where
  | domain (e : DomainError)
  | infra (msg : String)
deriving Repr, DecidableEq

/-- entity.User (the variant carrying TokenVersion, cf. IncrementTokenVersion
and the admin force-logout handler).  Status and role are the string enums of
pkg/types. -/
structure User where
  id : Nat
  username : String
  email : String
  password : String
  status : String
  role : String
  tenantID : Option Nat := none
  tokenVersion : Nat := 0
  mergedIntoUserID : Option Nat := none
deriving Repr, DecidableEq

def User.IsActive (u : User) : Bool := u.status == "active"

def User.IncrementTokenVersion (u : User) : User :=
  { u with tokenVersion := u.tokenVersion + 1 }

/-- entity: `IsTokenVersionValid` — defined in the source but never called on
any verification path. -/
def User.IsTokenVersionValid (u : User) (version : Nat) : Bool :=
  u.tokenVersion == version

/-- token.TokenClaims: the custom fields plus the jwt.RegisteredClaims the code
sets (Issuer, Subject, IssuedAt, ExpiresAt, NotBefore).  Audience and ID are
never set and marshal away under omitempty. -/
structure TokenClaims where
  userID : Nat
  username : String
  role : String
  sessionID : String
  iss : String
  sub : String
  iat : Nat
  exp : Nat
  nbf : Nat
deriving Repr, DecidableEq

/-- A signed JWS compact token, modelled structurally: claims, header alg and
the HMAC key the signature was produced with. -/
structure SignedToken where
  claims : TokenClaims
  alg : String
  signedWith : String
deriving Repr, DecidableEq

/-- token.TokenPair.  AccessToken is the structural signed token. -/
structure TokenPair where
  accessToken : SignedToken
  refreshToken : String
  tokenType : String
  expiresIn : Nat
  refreshExpiresIn : Nat
  sessionID : String
deriving Repr, DecidableEq

/-- token.TokenService (secretKey, issuer, TTLs in seconds). -/
structure TokenService where
  secretKey : String
  issuer : String
  accessTTL : Nat
  refreshTTL : Nat
deriving Repr, DecidableEq

/-- pkg/constants: JWTIssuer. -/
def JWTIssuer : String := "custos-auth"

def NewTokenService (secretKey : String) (accessTTL refreshTTL : Nat) : TokenService :=
  { secretKey := secretKey, issuer := JWTIssuer, accessTTL := accessTTL, refreshTTL := refreshTTL }

/-- TokenService.GenerateAccessToken: builds the claim set
(sub = fmt.Sprintf of the user id, iat = nbf = now, exp = now + accessTTL) and
signs it with HS256 under the service secret.  Returns the TokenPair with
RefreshToken/RefreshExpiresIn still zero, exactly as the Go function does. -/
def TokenService.GenerateAccessToken (s : TokenService) (sessionID : String) (userID : Nat)
    (username : String) (role : String) (now : Nat) : TokenPair :=
  let claims : TokenClaims :=
    { userID := userID, username := username, role := role, sessionID := sessionID,
      iss := s.issuer, sub := Nat.repr userID,
      iat := now, exp := now + s.accessTTL, nbf := now }
  { accessToken := { claims := claims, alg := "HS256", signedWith := s.secretKey },
    refreshToken := "", tokenType := "Bearer",
    expiresIn := s.accessTTL, refreshExpiresIn := 0, sessionID := sessionID }

/-- golang-jwt/v5 jwt.ParseWithClaims with the service keyfunc, at time `now`.
The keyfunc rejects a non-HMAC alg; then the signature is verified against the
secret; then the default validator checks exp (`now.Before(exp)` must hold) and
nbf (`!now.Before(nbf)` must hold).  The error strings are the ones v5 actually
produces: claim-validation failures are wrapped under
"token has invalid claims: ". -/
def jwtParseWithClaims (secret : String) (tok : SignedToken) (now : Nat) :
    Except String TokenClaims :=
  if !(tok.alg == "HS256" || tok.alg == "HS384" || tok.alg == "HS512") then
    .error ("token is unverifiable: error while executing keyfunc: unexpected signing method: " ++ tok.alg)
  else if tok.signedWith != secret then
    .error "token signature is invalid: signature is invalid"
  else if !(now < tok.claims.exp) then
    .error "token has invalid claims: token is expired"
  else if now < tok.claims.nbf then
    .error "token has invalid claims: token is not valid yet"
  else
    .ok tok.claims

/-- TokenService.ValidateToken: parse, then map the error — the literal
comparison `err.Error() == "token is expired"` decides between TokenExpired and
TokenInvalid. -/
def TokenService.ValidateToken (s : TokenService) (tok : SignedToken) (now : Nat) :
    Except DomainError TokenClaims :=
  match jwtParseWithClaims s.secretKey tok now with
  | .error e =>
      if e == "token is expired" then .error NewTokenExpiredError
      else .error NewTokenInvalidError
  | .ok claims => .ok claims

/-- The JSON keys of a marshalled TokenClaims: the four custom fields are
always emitted; of the RegisteredClaims, iss and sub are strings under
omitempty (emitted iff non-empty) and the three set *NumericDate pointers are
always emitted; aud and jti are never set and are omitted. -/
def marshalClaimKeys (c : TokenClaims) : List String :=
  ["user_id", "username", "role", "session_id"] ++
    (if c.iss == "" then [] else ["iss"]) ++
    (if c.sub == "" then [] else ["sub"]) ++
    ["exp", "nbf", "iat"]

/-- Modelled from the spec's words (for comparison only): the claim set the
specification asserts, `{sub, sessionId, role, tenantId?, ver, iat, exp, iss}`;
"ver" is listed as mandatory, "tenantId" as optional. -/
def specAccessTokenClaimKeys : List String :=
  ["sub", "sessionId", "role", "tenantId", "ver", "iat", "exp", "iss"]

/-- External crypto primitives used by the auth service:
`hashToken` is the SHA-256 + base64url digest shared by
TokenService.HashRefreshToken and entity.NewRefreshToken;
`checkPassword plaintext hash` is bcrypt.CompareHashAndPassword succeeding. -/
structure Crypto where
  hashToken : String → String
  checkPassword : String → String → Bool

/-- entity.RefreshToken row: id (autoincrement), owner, SHA-256 hash of the
secret, one-time-use flag, expiry. -/
structure RefreshTokenRec where
  id : Nat
  userID : Nat
  tokenHash : String
  isUsed : Bool
  expiresAt : Nat
deriving Repr, DecidableEq

/-- entity.NewRefreshToken: stores only the hash of the clear secret. -/
def NewRefreshTokenRec (hashFn : String → String) (userID : Nat) (token : String)
    (expiresAt : Nat) : RefreshTokenRec :=
  { id := 0, userID := userID, tokenHash := hashFn token, isUsed := false, expiresAt := expiresAt }

/-- entity.Session row (the variant persisted by the mysql sessionRepository):
numeric primary key, opaque SessionID, pointer to the current refresh token
row, revoked flag. -/
structure SessionRec where
  rowID : Nat
  userID : Nat
  sessionID : String
  refreshTokenID : Option Nat
  userAgent : String
  ip : String
  revoked : Bool
  lastSeenAt : Nat
deriving Repr, DecidableEq

/-- entity Session.IsValid: not revoked (expiry is not consulted). -/
def SessionRec.IsValid (s : SessionRec) : Bool := !s.revoked

/-- entity.NewSession (the uuid is supplied by the caller of the embedding). -/
def NewSession (userID : Nat) (sessionID userAgent ip : String) (now : Nat) : SessionRec :=
  { rowID := 0, userID := userID, sessionID := sessionID, refreshTokenID := none,
    userAgent := userAgent, ip := ip, revoked := false, lastSeenAt := now }

/-- The relational state behind the repositories.  Lists are kept in
primary-key (insertion) order; nextRefreshTokenID / nextSessionRowID model the
autoincrement counters. -/
structure Store where
  users : List User
  sessions : List SessionRec
  refreshTokens : List RefreshTokenRec
  nextRefreshTokenID : Nat
  nextSessionRowID : Nat
deriving Repr, DecidableEq

/-- userRepository.GetByUsername (First by username; Option models the
ErrUserNotFound outcome). -/
def userGetByUsername (st : Store) (username : String) : Option User :=
  st.users.find? (fun u => u.username == username)

/-- userRepository.GetByID. -/
def userGetByID (st : Store) (id : Nat) : Option User :=
  st.users.find? (fun u => u.id == id)

/-- refreshTokenRepository.GetByTokenHash: First WHERE token_hash = ? AND
is_used = false AND expires_at > now; record-not-found becomes none. -/
def getByTokenHash (st : Store) (hash : String) (now : Nat) : Option RefreshTokenRec :=
  st.refreshTokens.find? (fun rt => rt.tokenHash == hash && !rt.isUsed && now < rt.expiresAt)

/-- sessionRepository.GetByID: First WHERE session_id = ? AND revoked = false;
record-not-found becomes none (the Go method returns (nil, nil)). -/
def sessionGetByID (st : Store) (id : String) : Option SessionRec :=
  st.sessions.find? (fun s => s.sessionID == id && !s.revoked)

/-- sessionRepository.GetByRefreshTokenHash: resolve the refresh token row by
hash, then First session WHERE refresh_token_id = ? AND revoked = false. -/
def getByRefreshTokenHash (st : Store) (hash : String) (now : Nat) : Option SessionRec :=
  match getByTokenHash st hash now with
  | none => none
  | some rt => st.sessions.find? (fun s => s.refreshTokenID == some rt.id && !s.revoked)

/-- refreshTokenRepository.Create: insert with the autoincrement id; returns
the assigned id alongside the new state. -/
def refreshTokenCreate (st : Store) (rec : RefreshTokenRec) : Store × Nat :=
  let assigned := st.nextRefreshTokenID
  ({ st with
      refreshTokens := st.refreshTokens ++ [{ rec with id := assigned }],
      nextRefreshTokenID := assigned + 1 },
   assigned)

/-- refreshTokenRepository.Delete by primary key. -/
def refreshTokenDelete (st : Store) (id : Nat) : Store :=
  { st with refreshTokens := st.refreshTokens.filter (fun rt => rt.id != id) }

/-- sessionRepository.Create. -/
def sessionCreate (st : Store) (s : SessionRec) : Store :=
  { st with
      sessions := st.sessions ++ [{ s with rowID := st.nextSessionRowID }],
      nextSessionRowID := st.nextSessionRowID + 1 }

/-- sessionRepository.UpdateRefreshToken: in one transaction, find the session
by session_id (no revoked filter), mark its current refresh token row is_used,
insert the freshly hashed replacement, and point the session at it. -/
def updateRefreshToken (st : Store) (id newHash : String) (expiresAt lastUsed : Nat) :
    Except String Store :=
  match st.sessions.find? (fun s => s.sessionID == id) with
  | none => .error "record not found"
  | some sess =>
      let afterMark :=
        match sess.refreshTokenID with
        | none => st.refreshTokens
        | some oid =>
            st.refreshTokens.map (fun rt => if rt.id == oid then { rt with isUsed := true } else rt)
      let newRec : RefreshTokenRec :=
        { id := st.nextRefreshTokenID, userID := sess.userID, tokenHash := newHash,
          isUsed := false, expiresAt := expiresAt }
      let newSessions :=
        st.sessions.map (fun s =>
          if s.rowID == sess.rowID then
            { s with refreshTokenID := some newRec.id, lastSeenAt := lastUsed }
          else s)
      .ok { st with
              refreshTokens := afterMark ++ [newRec],
              sessions := newSessions,
              nextRefreshTokenID := st.nextRefreshTokenID + 1 }

/-- sessionRepository.Revoke: UPDATE sessions SET revoked = true WHERE
session_id = ?.  With the repository's MySQL driver (DSN without
clientFoundRows) RowsAffected is the number of rows actually *changed*, i.e.
the matching rows that were not yet revoked; RowsAffected = 0 is turned into
gorm.ErrRecordNotFound.  Returns the post-UPDATE state together with the
optional error. -/
def sessionRevokeRun (st : Store) (id : String) : Store × Option String :=
  let affected := (st.sessions.filter (fun s => s.sessionID == id && !s.revoked)).length
  let st' :=
    { st with
        sessions := st.sessions.map (fun s =>
          if s.sessionID == id then { s with revoked := true } else s) }
  (st', if affected == 0 then some "record not found" else none)

/-- sessionRepository.RevokeByUser: UPDATE ... WHERE user_id = ? (no
RowsAffected check). -/
def sessionRevokeByUser (st : Store) (uid : Nat) : Store :=
  { st with
      sessions := st.sessions.map (fun s =>
        if s.userID == uid then { s with revoked := true } else s) }

/-- AuthService.Login.  `sessionID` stands for the uuid minted in
entity.NewSession, `newSecret` for the random refresh secret from
GenerateRefreshToken, `sessionCreateOk` for whether sessionRepo.Create
succeeds (it only fails on infrastructure errors).  The result is paired with
the post-call store so that the failure clean-up is observable. -/
def login (cr : Crypto) (svc : TokenService) (st : Store)
    (username password sessionID newSecret : String) (now : Nat)
    (sessionCreateOk : Bool) : Except AuthErr (TokenPair × User) × Store :=
  match userGetByUsername st username with
  | none => (.error (.domain NewInvalidCredentialsError), st)
  | some user =>
    if !user.IsActive then (.error (.domain NewInvalidCredentialsError), st)
    else if !cr.checkPassword password user.password then
      (.error (.domain NewInvalidCredentialsError), st)
    else
      let session := NewSession user.id sessionID "" "" now
      let pair := svc.GenerateAccessToken sessionID user.id user.username user.role now
      let refreshExpiresAt := now + svc.refreshTTL
      let rec0 := NewRefreshTokenRec cr.hashToken user.id newSecret refreshExpiresAt
      let created := refreshTokenCreate st rec0
      let session := { session with refreshTokenID := some created.2 }
      if !sessionCreateOk then
        (.error (.infra "failed to create session"), refreshTokenDelete created.1 created.2)
      else
        let st2 := sessionCreate created.1 session
        ((.ok ({ pair with refreshToken := newSecret, refreshExpiresIn := svc.refreshTTL,
                            sessionID := session.sessionID }, user)), st2)

/-- AuthService.Refresh.  `newSecret` is the replacement secret from
GenerateRefreshToken.  Mirrors auth.go: hash the presented secret, look the
session up by that hash, check the session id matches, check IsValid, load the
user, rotate via UpdateRefreshToken. -/
def refresh (cr : Crypto) (svc : TokenService) (st : Store)
    (sessionID presentedSecret newSecret : String) (now : Nat) :
    Except AuthErr (TokenPair × User) × Store :=
  let hashed := cr.hashToken presentedSecret
  match getByRefreshTokenHash st hashed now with
  | none => (.error (.domain NewTokenInvalidError), st)
  | some session =>
    if session.sessionID != sessionID then (.error (.domain NewTokenInvalidError), st)
    else if !session.IsValid then
      let run := sessionRevokeRun st sessionID
      (.error (.domain NewTokenExpiredError), run.1)
    else
      match userGetByID st session.userID with
      | none => (.error (.domain NewUserNotFoundError), st)
      | some user =>
        if !user.IsActive then
          let run := sessionRevokeRun st sessionID
          (.error (.domain NewInvalidCredentialsError), run.1)
        else
          let pair := svc.GenerateAccessToken session.sessionID user.id user.username user.role now
          match updateRefreshToken st session.sessionID (cr.hashToken newSecret)
              (now + svc.refreshTTL) now with
          | .error e => (.error (.infra e), st)
          | .ok st' =>
              ((.ok ({ pair with refreshToken := newSecret,
                                  refreshExpiresIn := svc.refreshTTL,
                                  sessionID := session.sessionID }, user)), st')

/-- AuthService.Logout: reject the empty session id, then Revoke; a repository
error is wrapped as an infrastructure error. -/
def logout (st : Store) (sessionID : String) : Except AuthErr Unit × Store :=
  if sessionID == "" then (.error (.domain NewSessionNotFoundError), st)
  else
    let run := sessionRevokeRun st sessionID
    match run.2 with
    | some e => (.error (.infra ("failed to revoke session: " ++ e)), run.1)
    | none => (.ok (), run.1)

/-- AuthService.LogoutAll. -/
def logoutAll (st : Store) (userID : Nat) : Except AuthErr Unit × Store :=
  if userID == 0 then (.error (.domain NewUserNotFoundError), st)
  else ((.ok ()), sessionRevokeByUser st userID)

/-- The observable outcome of AuthMiddleware.RequireAuth for a presented
bearer token: the request proceeds with the claims, or is aborted with a 401
carrying a code, or the handler panics (a nil-pointer dereference). -/
inductive AuthOutcome where
  | ok (claims : TokenClaims)
  | unauthorized (code : String)
  | panicked
deriving Repr, DecidableEq

/-- AuthMiddleware.ensureSessionActive with a wired session repository.  When
GetByID finds no unrevoked session it returns (nil, nil); the Go code then
calls session.IsValid() on the nil pointer, which dereferences nil — modelled
as `panicked`.  (The SESSION_NOT_FOUND branch fires only on repository
infrastructure errors, which the embedding has none of.) -/
def ensureSessionActive (st : Store) (claims : TokenClaims) : AuthOutcome :=
  if claims.sessionID == "" then .ok claims
  else
    match sessionGetByID st claims.sessionID with
    | none => .panicked
    | some s => if !s.IsValid then .unauthorized "SESSION_REVOKED" else .ok claims

/-- AuthMiddleware.RequireAuth from the point where the bearer token has been
extracted from the Authorization header: validate, surface the DomainError
code on failure, otherwise run ensureSessionActive. -/
def requireAuth (svc : TokenService) (st : Store) (tok : SignedToken) (now : Nat) :
    AuthOutcome :=
  match svc.ValidateToken tok now with
  | .error e => .unauthorized e.code
  | .ok claims => ensureSessionActive st claims

/-- AdminHandler.ForceLogoutUser core effect: load the target user and
increment its token version ("to invalidate all tokens"), persisting the
update.  Nothing else in the codebase reads TokenVersion. -/
def forceLogoutUser (st : Store) (targetID : Nat) : Except String Store :=
  match userGetByID st targetID with
  | none => .error "user not found"
  | some u =>
      .ok { st with
              users := st.users.map (fun v =>
                if v.id == u.id then v.IncrementTokenVersion else v) }

/-! ### Concrete scenario used for counterexamples and witnesses -/

/-- A concrete instantiation of the external crypto primitives: an injective
stand-in for the SHA-256+base64url digest and a bcrypt comparison that accepts
exactly the recorded password. -/
def demoCrypto : Crypto :=
  { hashToken := fun s => "sha256:" ++ s,
    checkPassword := fun p h => h == "bcrypt:" ++ p }

def demoSvc : TokenService := NewTokenService "secret" 900 604800

def demoUser : User :=
  { id := 1, username := "alice", email := "alice@example.com",
    password := "bcrypt:Secret123", status := "active", role := "user" }

def demoToken : RefreshTokenRec :=
  { id := 1, userID := 1, tokenHash := "sha256:r1", isUsed := false, expiresAt := 1000000 }

def demoSession : SessionRec :=
  { rowID := 1, userID := 1, sessionID := "s1", refreshTokenID := some 1,
    userAgent := "", ip := "", revoked := false, lastSeenAt := 0 }

/-- One active user logged in once: session s1 holds the hash of secret r1. -/
def demoStore : Store :=
  { users := [demoUser], sessions := [demoSession], refreshTokens := [demoToken],
    nextRefreshTokenID := 2, nextSessionRowID := 2 }

/-! ### Claims -/

/-- C1 (code bug): after the admin force-logout increments the principal's
TokenVersion — the operation the repository documents as invalidating all of
the user's tokens — an access token minted *before* the increment still passes
the full verification pipeline (ValidateToken plus the live session check):
no revocation counter is embedded in the claims and none is compared. -/
theorem C1_token_version_never_compared :
    forceLogoutUser demoStore 1 =
      .ok { demoStore with users := [{ demoUser with tokenVersion := 1 }] } ∧
    requireAuth demoSvc { demoStore with users := [{ demoUser with tokenVersion := 1 }] }
        (demoSvc.GenerateAccessToken "s1" 1 "alice" "user" 100).accessToken 200 =
      .ok (demoSvc.GenerateAccessToken "s1" 1 "alice" "user" 100).accessToken.claims := by
  exact ⟨rfl, rfl⟩

/-- C3 (code bug): a structurally valid, unexpired access token whose embedded
session id matches no stored session makes the middleware dereference the nil
session returned by GetByID: the outcome is a panic, not a typed error from
the taxonomy.  The second conjunct shows the token itself verifies, so the
panic is reached. -/
theorem C3_unknown_session_panics :
    requireAuth demoSvc demoStore
        (demoSvc.GenerateAccessToken "ghost" 1 "alice" "user" 100).accessToken 200 = .panicked ∧
    demoSvc.ValidateToken
        (demoSvc.GenerateAccessToken "ghost" 1 "alice" "user" 100).accessToken 200 =
      .ok (demoSvc.GenerateAccessToken "ghost" 1 "alice" "user" 100).accessToken.claims := by
  exact ⟨rfl, rfl⟩

/-- C4 (code bug): a token with a valid signature whose expiry has passed is
rejected by ValidateToken with TOKEN_INVALID, not TOKEN_EXPIRED: the jwt/v5
parser wraps the expiry failure as "token has invalid claims: token is
expired", so the literal comparison against "token is expired" in
ValidateToken never fires. -/
theorem C4_expired_token_mapped_to_token_invalid :
    jwtParseWithClaims "secret"
        (demoSvc.GenerateAccessToken "s1" 1 "alice" "user" 0).accessToken 950 =
      .error "token has invalid claims: token is expired" ∧
    demoSvc.ValidateToken
        (demoSvc.GenerateAccessToken "s1" 1 "alice" "user" 0).accessToken 950 =
      .error NewTokenInvalidError := by
  exact ⟨rfl, rfl⟩

/-- C5 counterexample: the claim set of an issued access token is not the
spec's `{sub, sessionId, role, tenantId?, ver, iat, exp, iss}`: the mandatory
"ver" claim is absent, while "user_id" (among others) is present though the
spec's set does not allow it. -/
theorem C5_claim_set_differs_from_spec :
    "ver" ∈ specAccessTokenClaimKeys ∧
    "ver" ∉ marshalClaimKeys
        (demoSvc.GenerateAccessToken "s1" 1 "alice" "user" 100).accessToken.claims ∧
    "user_id" ∈ marshalClaimKeys
        (demoSvc.GenerateAccessToken "s1" 1 "alice" "user" 100).accessToken.claims ∧
    "user_id" ∉ specAccessTokenClaimKeys := by
  decide

theorem natToDigitsCore_length_le (b : Nat) :
    ∀ (fuel n : Nat) (ds : List Char), ds.length ≤ (Nat.toDigitsCore b fuel n ds).length := by
  intro fuel
  induction fuel with
  | zero => intro n ds; simp [Nat.toDigitsCore]
  | succ f ih =>
    intro n ds
    simp only [Nat.toDigitsCore]
    split
    · simp
    · calc ds.length ≤ (Nat.digitChar (n % b) :: ds).length := by simp
        _ ≤ _ := ih _ _

theorem natToDigits_ne_nil (n : Nat) : Nat.toDigits 10 n ≠ [] := by
  unfold Nat.toDigits
  simp only [Nat.toDigitsCore]
  split
  · simp
  · intro h
    have hle := natToDigitsCore_length_le 10 n (n / 10) [Nat.digitChar (n % 10)]
    rw [h] at hle
    simp at hle

theorem nat_repr_ne_empty (n : Nat) : Nat.repr n ≠ "" := by
  intro h
  apply natToDigits_ne_nil n
  have hd := congrArg String.data h
  simpa [Nat.repr, List.asString] using hd

/-- C5 amended: the claim set of every issued access token is exactly
`{user_id, username, role, session_id, iss, sub, exp, nbf, iat}`. -/
theorem C5_amended_claim_keys (key : String) (attl rttl : Nat) (sid : String) (uid : Nat)
    (un role : String) (now : Nat) :
    marshalClaimKeys
        ((NewTokenService key attl rttl).GenerateAccessToken sid uid un role now).accessToken.claims
      = ["user_id", "username", "role", "session_id", "iss", "sub", "exp", "nbf", "iat"] := by
  have h2 : (Nat.repr uid == "") = false := by
    rw [beq_eq_false_iff_ne]
    exact nat_repr_ne_empty uid
  simp [marshalClaimKeys, TokenService.GenerateAccessToken, NewTokenService, JWTIssuer, h2]

/-- C7 counterexample: Logout is not idempotent.  In the demo store the first
Logout("s1") succeeds, but repeating it fails with the wrapped
record-not-found error, because the UPDATE changes no rows the second time. -/
theorem C7_second_logout_fails :
    (logout demoStore "s1").1 = .ok () ∧
    (logout (logout demoStore "s1").2 "s1").1 =
      .error (.infra "failed to revoke session: record not found") := by
  exact ⟨rfl, rfl⟩

/-- C6: whether the principal is missing, inactive, or the password mismatches,
Login fails with the one identical InvalidCredentials error value and leaves
the store untouched, so the caller cannot tell the three conditions apart. -/
theorem C6_login_single_invalid_credentials_error (cr : Crypto) (svc : TokenService) (st : Store)
    (username password sessionID newSecret : String) (now : Nat) (ok : Bool)
    (hcase : userGetByUsername st username = none
      ∨ (∃ u, userGetByUsername st username = some u ∧ u.IsActive = false)
      ∨ (∃ u, userGetByUsername st username = some u ∧ u.IsActive = true ∧
            cr.checkPassword password u.password = false)) :
    login cr svc st username password sessionID newSecret now ok
      = (.error (.domain NewInvalidCredentialsError), st) := by
  unfold login
  rcases hcase with h | ⟨u, hu, hina⟩ | ⟨u, hu, ha, hpw⟩
  · rw [h]
  · rw [hu]; simp [hina]
  · rw [hu]; simp [ha, hpw]

/-- C6 witness: a username absent from the demo store fails with exactly the
InvalidCredentials error. -/
theorem C6_witness :
    login demoCrypto demoSvc demoStore "nobody" "pw" "sX" "rX" 0 true
      = (.error (.domain NewInvalidCredentialsError), demoStore) :=
  C6_login_single_invalid_credentials_error demoCrypto demoSvc demoStore
    "nobody" "pw" "sX" "rX" 0 true (Or.inl rfl)

/-- C8: validating an access token generated with the same service (same key)
before its expiry and not before its nbf succeeds and returns claims carrying
exactly the sessionId, principal id and role that were passed in. -/
theorem C8_round_trip (key : String) (attl rttl : Nat) (sid : String) (uid : Nat)
    (un rl : String) (n t : Nat) (h1 : n ≤ t) (h2 : t < n + attl) :
    (NewTokenService key attl rttl).ValidateToken
        ((NewTokenService key attl rttl).GenerateAccessToken sid uid un rl n).accessToken t
      = .ok { userID := uid, username := un, role := rl, sessionID := sid,
              iss := JWTIssuer, sub := Nat.repr uid, iat := n, exp := n + attl, nbf := n } := by
  simp [TokenService.ValidateToken, jwtParseWithClaims, TokenService.GenerateAccessToken,
        NewTokenService, h2, Nat.not_lt.mpr h1]

/-- C8 witness at a concrete key, claims and time. -/
theorem C8_witness :
    (NewTokenService "secret" 900 604800).ValidateToken
        ((NewTokenService "secret" 900 604800).GenerateAccessToken "s1" 42 "alice" "admin" 100).accessToken 500
      = .ok { userID := 42, username := "alice", role := "admin", sessionID := "s1",
              iss := JWTIssuer, sub := Nat.repr 42, iat := 100, exp := 100 + 900, nbf := 100 } :=
  C8_round_trip "secret" 900 604800 "s1" 42 "alice" "admin" 100 500 (by decide) (by decide)

/-- C7 amended: Logout(sessionId) revokes exactly that session and leaves
every other session unchanged, but it is not idempotent: when every stored row
with that session id is already revoked (in particular after a prior
Logout), the UPDATE changes no rows and Logout fails with the wrapped
record-not-found error, leaving the store unchanged. -/
theorem C7_amended_logout_exact_but_not_idempotent (st : Store) (sid : String)
    (hne : sid ≠ "") :
    ((∃ s ∈ st.sessions, s.sessionID = sid ∧ s.revoked = false) →
        (logout st sid).1 = .ok ()) ∧
    ((logout st sid).2).sessions
      = st.sessions.map (fun s => if s.sessionID = sid then { s with revoked := true } else s) ∧
    (∀ s ∈ st.sessions, s.sessionID ≠ sid → s ∈ ((logout st sid).2).sessions) ∧
    ((∀ s ∈ st.sessions, s.sessionID = sid → s.revoked = true) →
        (logout st sid).1 = .error (.infra "failed to revoke session: record not found")
          ∧ (logout st sid).2 = st) := by
  have hsid : (sid == "") = false := beq_eq_false_iff_ne.mpr hne
  have hfun : (fun s : SessionRec => if s.sessionID == sid then { s with revoked := true } else s)
      = (fun s : SessionRec => if s.sessionID = sid then { s with revoked := true } else s) := by
    funext s
    by_cases h : s.sessionID = sid <;> simp [h]
  have h2run : (logout st sid).2 = (sessionRevokeRun st sid).1 := by
    cases h : (sessionRevokeRun st sid).2 <;> simp [logout, hsid, h]
  have hsess : ((logout st sid).2).sessions
      = st.sessions.map (fun s => if s.sessionID = sid then { s with revoked := true } else s) := by
    rw [h2run, ← hfun]
    rfl
  refine ⟨?_, hsess, ?_, ?_⟩
  · rintro ⟨s, hs, hsid2, hrev⟩
    have hAne : ((st.sessions.filter fun x => x.sessionID == sid && !x.revoked).length == 0)
        = false := by
      rw [beq_eq_false_iff_ne]
      intro h0
      have hmem : s ∈ st.sessions.filter (fun x => x.sessionID == sid && !x.revoked) :=
        List.mem_filter.mpr ⟨hs, by simp [hsid2, hrev]⟩
      rw [List.length_eq_zero.mp h0] at hmem
      simp at hmem
    simp [logout, sessionRevokeRun, hsid, hAne]
  · intro s hs hne2
    rw [hsess]
    exact List.mem_map.mpr ⟨s, hs, by simp [hne2]⟩
  · intro hall
    have hA : ((st.sessions.filter fun x => x.sessionID == sid && !x.revoked).length = 0) := by
      rw [List.length_eq_zero, List.filter_eq_nil_iff]
      intro a ha
      by_cases h : a.sessionID = sid
      · simp [h, hall a ha h]
      · simp [h]
    constructor
    · simp [logout, sessionRevokeRun, hsid, hA]
    · have hmapid : st.sessions.map
          (fun s : SessionRec => if s.sessionID = sid then { s with revoked := true } else s)
          = st.sessions := by
        have : ∀ s ∈ st.sessions,
            (if s.sessionID = sid then { s with revoked := true } else s) = id s := by
          intro s hs
          by_cases h : s.sessionID = sid
          · have hrev := hall s hs h
            cases s
            simp_all
          · simp [h]
        rw [List.map_congr_left this, List.map_id]
      rw [h2run]
      have hfin : (sessionRevokeRun st sid).1 = st := by
        unfold sessionRevokeRun
        simp only [hfun, hmapid]
      exact hfin

/-- C7 amended witness: in the demo store session s1 is active, so the first
Logout succeeds. -/
theorem C7_amended_witness :
    "s1" ≠ "" ∧ (logout demoStore "s1").1 = .ok () :=
  ⟨by decide,
    (C7_amended_logout_exact_but_not_idempotent demoStore "s1" (by decide)).1
      ⟨demoSession, by decide, rfl, rfl⟩⟩

/-- C10: when the credentials check out but persisting the session fails,
Login reports an error and the refresh-token record it had just created is
deleted again: the refresh-token table and the session table are left exactly
as before the call. -/
theorem C10_login_failure_cleanup (cr : Crypto) (svc : TokenService) (st : Store)
    (username password sessionID newSecret : String) (now : Nat) (u : User)
    (hu : userGetByUsername st username = some u)
    (hact : u.IsActive = true)
    (hpw : cr.checkPassword password u.password = true)
    (hid : ∀ rt ∈ st.refreshTokens, rt.id ≠ st.nextRefreshTokenID) :
    (login cr svc st username password sessionID newSecret now false).1
      = .error (.infra "failed to create session") ∧
    ((login cr svc st username password sessionID newSecret now false).2).refreshTokens
      = st.refreshTokens ∧
    ((login cr svc st username password sessionID newSecret now false).2).sessions
      = st.sessions := by
  refine ⟨?_, ?_, ?_⟩
  · simp [login, hu, hact, hpw]
  · simp [login, hu, hact, hpw, refreshTokenDelete, refreshTokenCreate, List.filter_append]
    exact hid
  · simp [login, hu, hact, hpw, refreshTokenDelete, refreshTokenCreate]

/-- C10 witness: a failed session insert right after a valid alice login
leaves the demo store's refresh tokens as they were. -/
theorem C10_witness :
    (login demoCrypto demoSvc demoStore "alice" "Secret123" "s2" "r2" 0 false).1
      = .error (.infra "failed to create session") ∧
    ((login demoCrypto demoSvc demoStore "alice" "Secret123" "s2" "r2" 0 false).2).refreshTokens
      = demoStore.refreshTokens :=
  ⟨(C10_login_failure_cleanup demoCrypto demoSvc demoStore "alice" "Secret123" "s2" "r2" 0
      demoUser rfl rfl (by decide) (by decide)).1,
   (C10_login_failure_cleanup demoCrypto demoSvc demoStore "alice" "Secret123" "s2" "r2" 0
      demoUser rfl rfl (by decide) (by decide)).2.1⟩

/-- The persistence invariant of C9: every stored refresh-token row carries an
image of the one-way hash function, never a clear secret. -/
def hashOnly (cr : Crypto) (l : List RefreshTokenRec) : Prop :=
  ∀ rt ∈ l, ∃ sec, rt.tokenHash = cr.hashToken sec

theorem login_refreshTokens_hashes (cr : Crypto) (svc : TokenService) (st : Store)
    (username password sessionID newSecret : String) (now : Nat) (ok : Bool) :
    ∀ rt ∈ ((login cr svc st username password sessionID newSecret now ok).2).refreshTokens,
      rt ∈ st.refreshTokens ∨ rt.tokenHash = cr.hashToken newSecret := by
  intro rt hrt
  unfold login at hrt
  cases hu : userGetByUsername st username with
  | none => rw [hu] at hrt; exact .inl hrt
  | some u =>
    rw [hu] at hrt
    by_cases ha : u.IsActive = false
    case pos => simp [ha] at hrt; exact .inl hrt
    case neg =>
      by_cases hp : cr.checkPassword password u.password = false
      case pos => simp [ha, hp] at hrt; exact .inl hrt
      case neg =>
        cases ok with
        | false =>
          simp [ha, hp, refreshTokenDelete, refreshTokenCreate, NewRefreshTokenRec,
                List.mem_filter, List.mem_append] at hrt
          exact .inl hrt.1
        | true =>
          simp [ha, hp, sessionCreate, refreshTokenCreate, NewRefreshTokenRec,
                List.mem_append] at hrt
          rcases hrt with h | h
          · exact .inl h
          · exact .inr (by rw [h])

theorem updateRefreshToken_hashes (st : Store) (id newHash : String)
    (expiresAt lastUsed : Nat) (st' : Store)
    (h : updateRefreshToken st id newHash expiresAt lastUsed = .ok st') :
    ∀ rt ∈ st'.refreshTokens,
      (∃ rt0 ∈ st.refreshTokens, rt.tokenHash = rt0.tokenHash) ∨ rt.tokenHash = newHash := by
  unfold updateRefreshToken at h
  cases hf : st.sessions.find? (fun s => s.sessionID == id) with
  | none => rw [hf] at h; cases h
  | some sess =>
    simp only [hf] at h
    cases hoid : sess.refreshTokenID with
    | none =>
      simp only [hoid] at h
      injection h with h'
      subst h'
      intro rt hrt
      rcases List.mem_append.mp hrt with hL | hR
      · exact .inl ⟨rt, hL, rfl⟩
      · simp at hR
        exact .inr (by rw [hR])
    | some oid =>
      simp only [hoid] at h
      injection h with h'
      subst h'
      intro rt hrt
      rcases List.mem_append.mp hrt with hL | hR
      · obtain ⟨a, ha, hfa⟩ := List.mem_map.mp hL
        by_cases hcase : a.id == oid
        · simp [hcase] at hfa
          exact .inl ⟨a, ha, by rw [← hfa]⟩
        · simp [hcase] at hfa
          exact .inl ⟨a, ha, by rw [← hfa]⟩
      · simp at hR
        exact .inr (by rw [hR])

theorem refresh_refreshTokens_hashes (cr : Crypto) (svc : TokenService) (st : Store)
    (sessionID presentedSecret newSecret : String) (now : Nat) :
    ∀ rt ∈ ((refresh cr svc st sessionID presentedSecret newSecret now).2).refreshTokens,
      (∃ rt0 ∈ st.refreshTokens, rt.tokenHash = rt0.tokenHash)
        ∨ rt.tokenHash = cr.hashToken newSecret := by
  intro rt hrt
  unfold refresh at hrt
  cases hf : getByRefreshTokenHash st (cr.hashToken presentedSecret) now with
  | none => simp only [hf] at hrt; exact .inl ⟨rt, hrt, rfl⟩
  | some sess =>
    simp only [hf] at hrt
    by_cases h1 : sess.sessionID = sessionID
    case neg =>
      simp [h1] at hrt
      exact .inl ⟨rt, hrt, rfl⟩
    case pos =>
      by_cases h2 : sess.IsValid = false
      case pos =>
        simp [h1, h2, sessionRevokeRun] at hrt
        exact .inl ⟨rt, hrt, rfl⟩
      case neg =>
        cases hu : userGetByID st sess.userID with
        | none =>
          simp [h1, h2, hu] at hrt
          exact .inl ⟨rt, hrt, rfl⟩
        | some user =>
          by_cases h3 : user.IsActive = false
          case pos =>
            simp [h1, h2, hu, h3, sessionRevokeRun] at hrt
            exact .inl ⟨rt, hrt, rfl⟩
          case neg =>
            cases hupd : updateRefreshToken st sessionID (cr.hashToken newSecret)
                (now + svc.refreshTTL) now with
            | error e =>
              simp [h1, h2, hu, h3, hupd] at hrt
              exact .inl ⟨rt, hrt, rfl⟩
            | ok st2 =>
              simp [h1, h2, hu, h3, hupd] at hrt
              exact updateRefreshToken_hashes st sessionID (cr.hashToken newSecret)
                (now + svc.refreshTTL) now st2 hupd rt hrt

theorem logout_refreshTokens_eq (st : Store) (sid : String) :
    ((logout st sid).2).refreshTokens = st.refreshTokens := by
  by_cases hs : sid == ""
  · simp [logout, hs]
  · have hsf : (sid == "") = false := by simpa using hs
    have h2run : (logout st sid).2 = (sessionRevokeRun st sid).1 := by
      cases h : (sessionRevokeRun st sid).2 <;> simp [logout, hsf, h]
    rw [h2run]
    rfl

theorem login_ok_refreshToken (cr : Crypto) (svc : TokenService) (st : Store)
    (username password sessionID newSecret : String) (now : Nat) (ok : Bool)
    (pair : TokenPair) (user : User)
    (h : (login cr svc st username password sessionID newSecret now ok).1 = .ok (pair, user)) :
    pair.refreshToken = newSecret := by
  unfold login at h
  cases hu : userGetByUsername st username with
  | none => rw [hu] at h; cases h
  | some u =>
    rw [hu] at h
    by_cases ha : u.IsActive = false
    case pos => simp [ha] at h
    case neg =>
      by_cases hp : cr.checkPassword password u.password = false
      case pos => simp [ha, hp] at h
      case neg =>
        cases ok with
        | false => simp [ha, hp] at h
        | true =>
          simp [ha, hp] at h
          rw [← h.1]

theorem refresh_ok_refreshToken (cr : Crypto) (svc : TokenService) (st : Store)
    (sessionID presentedSecret newSecret : String) (now : Nat)
    (pair : TokenPair) (user : User)
    (h : (refresh cr svc st sessionID presentedSecret newSecret now).1 = .ok (pair, user)) :
    pair.refreshToken = newSecret := by
  unfold refresh at h
  cases hf : getByRefreshTokenHash st (cr.hashToken presentedSecret) now with
  | none => simp only [hf] at h; cases h
  | some sess =>
    simp only [hf] at h
    by_cases h1 : sess.sessionID = sessionID
    case neg => simp [h1] at h
    case pos =>
      by_cases h2 : sess.IsValid = false
      case pos => simp [h1, h2] at h
      case neg =>
        cases hu : userGetByID st sess.userID with
        | none => simp [h1, h2, hu] at h
        | some u =>
          by_cases h3 : u.IsActive = false
          case pos => simp [h1, h2, hu, h3] at h
          case neg =>
            cases hupd : updateRefreshToken st sessionID (cr.hashToken newSecret)
                (now + svc.refreshTTL) now with
            | error e => simp [h1, h2, hu, h3, hupd] at h
            | ok st2 =>
              simp [h1, h2, hu, h3, hupd] at h
              rw [← h.1]

/-- C9: across Login, Refresh and Logout, the store only ever holds refresh
secrets as images of the one-way hash — the invariant is preserved by every
operation — while the clear secret is handed back to the caller in the
returned token pair at generation time. -/
theorem C9_refresh_secrets_persisted_only_hashed (cr : Crypto) (svc : TokenService) (st : Store)
    (username password sessionID newSecret : String)
    (sid2 presented newSecret2 sid3 : String) (now : Nat) (ok : Bool)
    (hinv : hashOnly cr st.refreshTokens) :
    hashOnly cr ((login cr svc st username password sessionID newSecret now ok).2).refreshTokens ∧
    hashOnly cr ((refresh cr svc st sid2 presented newSecret2 now).2).refreshTokens ∧
    hashOnly cr ((logout st sid3).2).refreshTokens ∧
    (∀ pair user, (login cr svc st username password sessionID newSecret now ok).1
        = .ok (pair, user) → pair.refreshToken = newSecret) ∧
    (∀ pair user, (refresh cr svc st sid2 presented newSecret2 now).1
        = .ok (pair, user) → pair.refreshToken = newSecret2) := by
  refine ⟨?_, ?_, ?_, ?_, ?_⟩
  · intro rt hrt
    rcases login_refreshTokens_hashes cr svc st username password sessionID newSecret now ok
        rt hrt with h | h
    · exact hinv rt h
    · exact ⟨newSecret, h⟩
  · intro rt hrt
    rcases refresh_refreshTokens_hashes cr svc st sid2 presented newSecret2 now
        rt hrt with ⟨rt0, h0, he⟩ | h
    · obtain ⟨sec, hsec⟩ := hinv rt0 h0
      exact ⟨sec, by rw [he, hsec]⟩
    · exact ⟨newSecret2, h⟩
  · rw [logout_refreshTokens_eq]
    exact hinv
  · intro pair user h
    exact login_ok_refreshToken cr svc st username password sessionID newSecret now ok pair user h
  · intro pair user h
    exact refresh_ok_refreshToken cr svc st sid2 presented newSecret2 now pair user h

/-- C9 witness: the invariant holds of the demo store and is preserved by a
concrete login. -/
theorem C9_witness :
    hashOnly demoCrypto demoStore.refreshTokens ∧
    hashOnly demoCrypto
      ((login demoCrypto demoSvc demoStore "alice" "Secret123" "s2" "r2" 0 true).2).refreshTokens := by
  have hinv : hashOnly demoCrypto demoStore.refreshTokens := by
    intro rt hrt
    simp [demoStore, demoToken] at hrt
    exact ⟨"r1", by rw [hrt]; rfl⟩
  exact ⟨hinv,
    (C9_refresh_secrets_persisted_only_hashed demoCrypto demoSvc demoStore
      "alice" "Secret123" "s2" "r2" "x" "y" "z" "w" 0 true hinv).1⟩

/-- C2: (a) a presented secret never issued (every stored hash is the hash of
some other secret) fails Refresh with TokenInvalid leaving the store
untouched; (b) a presented secret whose stored records were all consumed by a
prior rotation fails the same way; (c) after a successful Refresh, the old
secret is immediately unusable for any further Refresh, and the new secret's
record is the session's sole current one (the session points at it, unused).
The hypotheses package what the rest of the system guarantees: the hash is
injective / collision-free on the stored records (SHA-256), and session ids
are unique (database unique index). -/
theorem C2_refresh_rotation_one_time_use (cr : Crypto) (svc : TokenService) (st : Store)
    (sid old new : String) (now : Nat) :
    ((Function.Injective cr.hashToken) →
      (∀ rt ∈ st.refreshTokens, ∃ s0, rt.tokenHash = cr.hashToken s0 ∧ s0 ≠ old) →
      refresh cr svc st sid old new now = (.error (.domain NewTokenInvalidError), st)) ∧
    ((∀ rt ∈ st.refreshTokens, rt.tokenHash = cr.hashToken old → rt.isUsed = true) →
      refresh cr svc st sid old new now = (.error (.domain NewTokenInvalidError), st)) ∧
    (∀ pair user st',
      refresh cr svc st sid old new now = (.ok (pair, user), st') →
      cr.hashToken new ≠ cr.hashToken old →
      (∀ a ∈ st.refreshTokens, ∀ b ∈ st.refreshTokens, a.tokenHash = b.tokenHash → a.id = b.id) →
      (∀ a ∈ st.sessions, ∀ b ∈ st.sessions, a.sessionID = b.sessionID → a = b) →
      ((∀ sid2 ns2 now2, (refresh cr svc st' sid2 old ns2 now2).1
          = .error (.domain NewTokenInvalidError)) ∧
       (∃ rt ∈ st'.refreshTokens, rt.tokenHash = cr.hashToken new ∧ rt.isUsed = false ∧
          ∃ s ∈ st'.sessions, s.sessionID = sid ∧ s.refreshTokenID = some rt.id))) := by
  refine ⟨?_, ?_, ?_⟩
  · intro hinj hiss
    have hnone : getByTokenHash st (cr.hashToken old) now = none := by
      rw [getByTokenHash, List.find?_eq_none]
      intro rt hrt
      obtain ⟨s0, hh, hs0⟩ := hiss rt hrt
      simp only [hh, Bool.and_eq_true, beq_iff_eq, not_and]
      intro heq
      exact absurd (hinj heq.1) hs0
    have hrn : getByRefreshTokenHash st (cr.hashToken old) now = none := by
      rw [getByRefreshTokenHash, hnone]
    simp [refresh, hrn]
  · intro hused
    have hnone : getByTokenHash st (cr.hashToken old) now = none := by
      rw [getByTokenHash, List.find?_eq_none]
      intro rt hrt
      by_cases hh : rt.tokenHash = cr.hashToken old
      · simp [hh, hused rt hrt hh]
      · simp [hh]
    have hrn : getByRefreshTokenHash st (cr.hashToken old) now = none := by
      rw [getByRefreshTokenHash, hnone]
    simp [refresh, hrn]
  · intro pair user st' hEq hne hid huniq
    unfold refresh at hEq
    cases hf : getByRefreshTokenHash st (cr.hashToken old) now with
    | none => simp only [hf] at hEq; simp at hEq
    | some sess =>
      simp only [hf] at hEq
      -- dissect the successful lookup
      have hf' := hf
      unfold getByRefreshTokenHash at hf'
      cases hg : getByTokenHash st (cr.hashToken old) now with
      | none => simp only [hg] at hf'; cases hf'
      | some rt0 =>
        simp only [hg] at hf'
        unfold getByTokenHash at hg
        have hrt0mem := List.mem_of_find?_eq_some hg
        have hpred0 := List.find?_some hg
        simp only [Bool.and_eq_true, beq_iff_eq, Bool.not_eq_true', decide_eq_true_eq] at hpred0
        obtain ⟨⟨htok0, hunused0⟩, hexp0⟩ :
            (rt0.tokenHash = cr.hashToken old ∧ rt0.isUsed = false) ∧ now < rt0.expiresAt := by
          tauto
        have hsessmem := List.mem_of_find?_eq_some hf'
        have hpreds := List.find?_some hf'
        simp only [Bool.and_eq_true, beq_iff_eq, Bool.not_eq_true'] at hpreds
        obtain ⟨hsessptr, hsessrev⟩ := hpreds
        by_cases h1 : sess.sessionID = sid
        case neg => simp [h1] at hEq
        case pos =>
          by_cases h2 : sess.IsValid = false
          case pos => simp [h1, h2] at hEq
          case neg =>
            cases hu : userGetByID st sess.userID with
            | none => simp [h1, h2, hu] at hEq
            | some u =>
              by_cases h3 : u.IsActive = false
              case pos => simp [h1, h2, hu, h3] at hEq
              case neg =>
                cases hupd : updateRefreshToken st sid (cr.hashToken new)
                    (now + svc.refreshTTL) now with
                | error e => simp [h1, h2, hu, h3, hupd] at hEq
                | ok st2 =>
                  simp [h1, h2, hu, h3, hupd] at hEq
                  have hupd' := hupd
                  unfold updateRefreshToken at hupd'
                  cases hfind : st.sessions.find? (fun s => s.sessionID == sid) with
                  | none => simp only [hfind] at hupd'; cases hupd'
                  | some sess2 =>
                    simp only [hfind] at hupd'
                    have hsess2mem := List.mem_of_find?_eq_some hfind
                    have hsess2id : sess2.sessionID = sid := by
                      have := List.find?_some hfind
                      simpa using this
                    have hsame : sess = sess2 :=
                      huniq sess hsessmem sess2 hsess2mem (by rw [h1, hsess2id])
                    rw [← hsame] at hupd'
                    simp only [hsessptr] at hupd'
                    injection hupd' with hst2
                    -- relate st' and st2, and read off the rotated tables
                    have hst' : st2 = st' := hEq.2
                    rw [← hst']
                    have hrts : st2.refreshTokens
                        = (st.refreshTokens.map (fun rt => if rt.id == rt0.id then { rt with isUsed := true } else rt)) ++ [{ id := st.nextRefreshTokenID, userID := sess.userID, tokenHash := cr.hashToken new, isUsed := false, expiresAt := now + svc.refreshTTL }] := by
                      rw [← hst2]
                    have hsss : st2.sessions
                        = st.sessions.map (fun s => if s.rowID == sess.rowID then { s with refreshTokenID := some st.nextRefreshTokenID, lastSeenAt := now } else s) := by
                      rw [← hst2]
                    constructor
                    · -- the old secret is dead in the rotated store
                      intro sid2 ns2 now2
                      have hnone2 : getByTokenHash st2 (cr.hashToken old) now2 = none := by
                        rw [getByTokenHash, hrts, List.find?_eq_none]
                        intro rt hrt
                        rcases List.mem_append.mp hrt with hL | hR
                        · obtain ⟨a, ha, hfa⟩ := List.mem_map.mp hL
                          by_cases hc : a.id = rt0.id
                          · simp [hc] at hfa
                            simp [← hfa]
                          · simp [hc] at hfa
                            have hneq : a.tokenHash ≠ cr.hashToken old := by
                              intro hcontra
                              exact hc (hid a ha rt0 hrt0mem (by rw [hcontra, htok0]))
                            simp [← hfa, hneq]
                        · simp only [List.mem_singleton] at hR
                          simp [hR, hne]
                      have hrn2 : getByRefreshTokenHash st2 (cr.hashToken old) now2 = none := by
                        rw [getByRefreshTokenHash, hnone2]
                      simp [refresh, hrn2]
                    · -- the new record is the session's sole current secret
                      refine ⟨{ id := st.nextRefreshTokenID, userID := sess.userID, tokenHash := cr.hashToken new, isUsed := false, expiresAt := now + svc.refreshTTL }, ?_, rfl, rfl, ?_⟩
                      · rw [hrts]
                        exact List.mem_append.mpr (Or.inr (List.mem_singleton.mpr rfl))
                      · refine ⟨{ sess with refreshTokenID := some st.nextRefreshTokenID, lastSeenAt := now }, ?_, h1, rfl⟩
                        rw [hsss]
                        exact List.mem_map.mpr ⟨sess, hsessmem, by simp⟩

/-- C2 witness: in the demo store, a never-issued secret fails Refresh with
TokenInvalid, and after the one successful rotation of r1 the old secret r1 is
rejected while the session points at the new record. -/
theorem C2_witness :
    refresh demoCrypto demoSvc demoStore "s1" "never-issued" "x" 100
      = (.error (.domain NewTokenInvalidError), demoStore) ∧
    (refresh demoCrypto demoSvc
        (refresh demoCrypto demoSvc demoStore "s1" "r1" "r2" 100).2 "s1" "r1" "r3" 100).1
      = .error (.domain NewTokenInvalidError) := by
  have hinj : Function.Injective demoCrypto.hashToken := by
    intro a b h
    have hd : ("sha256:" ++ a).data = ("sha256:" ++ b).data := congrArg String.data h
    simp only [String.data_append] at hd
    exact String.ext (List.append_cancel_left hd)
  refine ⟨?_, ?_⟩
  · exact (C2_refresh_rotation_one_time_use demoCrypto demoSvc demoStore
      "s1" "never-issued" "x" 100).1 hinj
      (by
        intro rt hrt
        simp [demoStore, demoToken] at hrt
        exact ⟨"r1", by rw [hrt]; rfl, by decide⟩)
  · exact ((C2_refresh_rotation_one_time_use demoCrypto demoSvc demoStore
      "s1" "r1" "r2" 100).2.2 _ _ _ rfl
      (by decide) (by decide) (by decide)).1 "s1" "r3" 100

end Custos
